import Mathlib

/-!
Shallow embedding of `remotespark/livyclientlib/livysession.py` (class
`LivySession`): a synchronous client for a Livy REST session.  Python
exceptions are modelled with `Except PyError`; the injected HTTP client is
modelled by explicit server-response arguments (an oracle per endpoint) and
every method additionally returns the list of HTTP calls it issued.  The
unbounded statement-completion poll and the `wait_for_state` retry loop are
modelled with an explicit fuel argument: `none` means the loop was still
running when the fuel ran out, so any `some` result is a result the Python
loop actually produces.
-/

set_option autoImplicit false

deriving instance DecidableEq for Except

namespace LivyModel

/-- Model of Python `str.lower()` (character-wise ASCII lower-casing, which
is what it does on the language strings this module handles). -/
def strLower (s : String) : String :=
  String.mk (s.toList.map Char.toLower)

/-- Python exceptions raised by the module: `ValueError`, `AssertionError`
(from bare `assert` and from the explicit raise in `_get_session_state`),
`LivyClientTimeoutError`, `IndexError` (from `[...][0]` on an empty list),
and the error the HTTP client raises when the response status code is not
in the allowed list. -/
inductive PyError where
  | valueError (msg : String)
  | assertionError (msg : String)
  | livyClientTimeoutError (msg : String)
  | indexError
  | httpStatusError (status : Nat)
deriving DecidableEq, Repr

/-- One HTTP call issued through the injected http client, recorded with its
path, the allowed status codes, and (for POST) the `code` field of the body. -/
inductive HttpCall where
  | post (path : String) (allowed : List Nat) (code : String)
  | get (path : String) (allowed : List Nat)
  | httpDelete (path : String) (allowed : List Nat)
deriving DecidableEq, Repr

/-- Modelled from the spec: `constants.py` is imported by the source file but
is not part of the sources given; the spec fixes the supported languages as
the enumerated set \x7bScala, Python\x7d (case-normalized to lowercase), with
Scala mapped to the Spark session kind and Python to the PySpark kind. -/
def Constants.lang_scala : String := "scala"

/-- Modelled from the spec: the Python language constant of `constants.py`. -/
def Constants.lang_python : String := "python"

/-- Modelled from the spec: the supported-language set of `constants.py`
(see `Constants.lang_scala`). -/
def Constants.lang_supported : List String :=
  [Constants.lang_scala, Constants.lang_python]

/-- The class attribute `_idle_session_state = "idle"`. -/
def idle_session_state : String := "idle"

/-- The class attribute `_possible_session_states`. -/
def possible_session_states : List String :=
  ["not_started", idle_session_state, "starting", "busy", "error", "dead"]

/-- The mutable state of a `LivySession` object.  The injected `http_client`
is not stored: it is modelled by the oracle arguments of the methods. -/
structure LivySession where
  state : String
  started_sql_context : Bool
  id : String
  language : String
  state_sleep_seconds : Int
  statement_sleep_seconds : Int
  create_sql_context_timeout_seconds : Int
deriving DecidableEq, Repr

/-- `LivySession.__init__`: the three `assert` statements, the sentinel-id /
`sql_created` contradiction check, lower-casing and validation of the
language, then field initialization (fresh sessions start `not_started` with
no sql context; adopted sessions start `busy`). -/
def init (language : String) (session_id : String) (sql_created : Bool)
    (state_sleep_seconds statement_sleep_seconds create_sql_context_timeout_seconds : Int) :
    Except PyError LivySession :=
  if ¬ state_sleep_seconds > 0 then
    .error (.assertionError "state_sleep_seconds > 0")
  else if ¬ statement_sleep_seconds ≥ 0 then
    .error (.assertionError "statement_sleep_seconds >= 0")
  else if ¬ create_sql_context_timeout_seconds ≥ 0 then
    .error (.assertionError "create_sql_context_timeout_seconds >= 0")
  else if session_id = "-1" ∧ sql_created = true then
    .error (.valueError "Cannot indicate sql state without session id.")
  else if strLower language ∉ Constants.lang_supported then
    .error (.valueError ("Session of language \x27" ++ strLower language ++
      "\x27 not supported. Session must be of languages " ++
      String.intercalate ", " Constants.lang_supported ++ "."))
  else if session_id = "-1" then
    .ok { state := "not_started", started_sql_context := false, id := session_id,
          language := strLower language, state_sleep_seconds := state_sleep_seconds,
          statement_sleep_seconds := statement_sleep_seconds,
          create_sql_context_timeout_seconds := create_sql_context_timeout_seconds }
  else
    .ok { state := "busy", started_sql_context := sql_created, id := session_id,
          language := strLower language, state_sleep_seconds := state_sleep_seconds,
          statement_sleep_seconds := statement_sleep_seconds,
          create_sql_context_timeout_seconds := create_sql_context_timeout_seconds }

/-- An indentation character (space or tab). -/
def isIndentChar (c : Char) : Bool :=
  c = ' ' || c = '\t'

/-- Split a character list at newline characters (the lines of the text,
newline separators removed, as in Python multiline `^`/`$` matching). -/
def splitLines : List Char → List (List Char)
  | [] => [[]]
  | c :: cs =>
    if c = '\n' then [] :: splitLines cs
    else
      match splitLines cs with
      | l :: ls => (c :: l) :: ls
      | [] => [[c]]

/-- Rejoin lines with newline separators. -/
def joinLines : List (List Char) → List Char
  | [] => []
  | [l] => l
  | l :: ls => l ++ '\n' :: joinLines ls

/-- True when the line is nonempty and consists only of spaces and tabs
(the `^[ \t]+$` lines that `textwrap.dedent` normalizes to empty). -/
def isWhitespaceOnlyLine (l : List Char) : Bool :=
  decide (l ≠ []) && l.all isIndentChar

/-- Longest common first segment of two character lists; `textwrap.dedent`
reduces the margin to this on each content line whose indent diverges. -/
def commonLead : List Char → List Char → List Char
  | x :: xs, y :: ys => if x = y then x :: commonLead xs ys else []
  | _, _ => []

/-- `textwrap.dedent` (Python standard library, used by `execute`):
whitespace-only lines are normalized to empty, the margin is the longest
common leading whitespace of all remaining nonempty lines, and that margin
is stripped from every line that starts with it. -/
def dedent (text : String) : String :=
  let lines := (splitLines text.toList).map (fun l => if isWhitespaceOnlyLine l then [] else l)
  let indents := (lines.filter (fun l => l ≠ [])).map (fun l => l.takeWhile isIndentChar)
  let margin : List Char :=
    match indents with
    | [] => []
    | i :: rest => rest.foldl commonLead i
  if margin = [] then
    String.mk (joinLines lines)
  else
    String.mk (joinLines
      (lines.map (fun l => if margin.isPrefixOf l then l.drop margin.length else l)))

/-- Digits-to-number accumulator for `strToInt`. -/
def natOfDigits (ds : List Char) : Option Nat :=
  if ds = [] then none
  else
    ds.foldl
      (fun acc c =>
        match acc with
        | none => none
        | some n => if c.isDigit then some (n * 10 + (c.toNat - 48)) else none)
      (some 0)

/-- Model of Python `int(...)` on the decimal session-id strings this module
produces (`str` of a server integer, or the sentinel `"-1"`): `none` means
`int` raises `ValueError`. -/
def strToInt (s : String) : Option Int :=
  match s.toList with
  | '-' :: ds => (natOfDigits ds).map (fun n => -(n : Int))
  | ds => (natOfDigits ds).map (fun n => (n : Int))

/-- One entry of the server response to `GET /sessions`:
`{"id": <int>, "state": <string>}`. -/
structure SessionEntry where
  id : Int
  state : String
deriving DecidableEq, Repr

/-- The `output` field of a statement entry:
`{"status": "ok"|"error", "data": {"text/plain": <string>}, "evalue": <string>}`. -/
structure StatementOutput where
  status : String
  textPlain : String
  evalue : String
deriving DecidableEq, Repr

/-- One entry of the server response to `GET /sessions/{id}/statements`. -/
structure Statement where
  id : Int
  state : String
  output : StatementOutput
deriving DecidableEq, Repr

/-- `LivySession._statements_url`. -/
def statements_url (sess : LivySession) : String :=
  "/sessions/" ++ sess.id ++ "/statements"

/-- `LivySession._get_session_state`: one `GET /sessions` call (its response
body is the `sessions` argument), filter the entries whose `id` equals
`int(self._id)` (an unparsable id makes `int` raise `ValueError`), raise an
`AssertionError` unless exactly one entry matched, and return that entry's
state string. -/
def get_session_state (sess : LivySession) (sessions : List SessionEntry) :
    Except PyError String :=
  match strToInt sess.id with
  | none => .error (.valueError ("invalid literal for int() with base 10: " ++ sess.id))
  | some idInt =>
    if (sessions.filter (fun s => s.id = idInt)).length ≠ 1 then
      .error (.assertionError ("Expected one session of id " ++ sess.id ++ " but got " ++
        toString (sessions.filter (fun s => s.id = idInt)).length ++ " sessions."))
    else
      match sessions.filter (fun s => s.id = idInt) with
      | session :: _ => .ok session.state
      | [] => .error .indexError

/-- The `state` property: read the state from the server, cache it in
`self._state` when it belongs to `_possible_session_states`, and raise a
`ValueError` otherwise.  Returns the state together with the updated
session object. -/
def state_read (sess : LivySession) (sessions : List SessionEntry) :
    Except PyError (String × LivySession) :=
  match get_session_state sess sessions with
  | .error e => .error e
  | .ok st =>
    if st ∈ possible_session_states then
      .ok (st, { sess with state := st })
    else
      .error (.valueError ("State \x27" ++ st ++ "\x27 not supported by session."))

/-- `LivySession.wait_for_state`: read the state (one `GET /sessions` per
attempt, response given by `sessionsAt pollIdx`); return when it equals the
target; otherwise, while `seconds_to_wait > 0`, sleep `state_sleep_seconds`
and retry with the budget reduced by that same amount; when the budget is
exhausted raise `LivyClientTimeoutError`.  `fuel` bounds the number of
attempts the model may take (`none` = fuel ran out with the loop still
running); a `some` result also carries the number of sleeps performed and
the list of HTTP calls issued. -/
def wait_for_state (sessionsAt : Nat → List SessionEntry) (sess : LivySession)
    (target : String) (seconds_to_wait : Int) :
    Nat → Nat → (Option (Except PyError LivySession)) × Nat × List HttpCall
  | 0, _ => (none, 0, [])
  | fuel + 1, pollIdx =>
    let call := HttpCall.get "/sessions" [200]
    match state_read sess (sessionsAt pollIdx) with
    | .error e => (some (.error e), 0, [call])
    | .ok (current_state, sess') =>
      if current_state = target then
        (some (.ok sess'), 0, [call])
      else if seconds_to_wait > 0 then
        let r := wait_for_state sessionsAt sess' target
          (seconds_to_wait - sess'.state_sleep_seconds) fuel (pollIdx + 1)
        (r.1, r.2.1 + 1, call :: r.2.2)
      else
        (some (.error (.livyClientTimeoutError ("Session " ++ sess'.id ++ " did not reach " ++
          target ++ " state in time. Current state is " ++ current_state ++ "."))), 0, [call])

/-- The polling loop of `LivySession._get_statement_output`: each iteration
issues `GET` on the statements url (response `statementsAt pollIdx`), picks
the entry whose id is `statement_id` (`[...][0]` raises `IndexError` when
there is none), sleeps while its state is `"running"`, and once the state is
terminal returns `data["text/plain"]` when the output status is `"ok"`, the
`evalue` field when it is `"error"`, and the initial `output = ""` otherwise.
`fuel` bounds the number of iterations the model may take. -/
def get_statement_output (url : String) (statementsAt : Nat → List Statement)
    (statement_id : Int) :
    Nat → Nat → (Option (Except PyError String)) × List HttpCall
  | 0, _ => (none, [])
  | fuel + 1, pollIdx =>
    let call := HttpCall.get url [200]
    match ((statementsAt pollIdx).filter (fun i => i.id = statement_id)).head? with
    | none => (some (.error .indexError), [call])
    | some statement =>
      if statement.state = "running" then
        let r := get_statement_output url statementsAt statement_id fuel (pollIdx + 1)
        (r.1, call :: r.2)
      else
        let statement_output := statement.output
        let output :=
          if statement_output.status = "ok" then statement_output.textPlain
          else if statement_output.status = "error" then statement_output.evalue
          else ""
        (some (.ok output), [call])

/-- `LivySession.execute`: dedent the commands, `POST` them (expecting 201)
to the statements url — the server assigns the statement id
`postStatementId` — then poll the statement until it leaves the `"running"`
state (see `get_statement_output`). -/
def execute (sess : LivySession) (postStatementId : Int)
    (statementsAt : Nat → List Statement) (fuel : Nat) (commands : String) :
    (Option (Except PyError String)) × List HttpCall :=
  let code := dedent commands
  let url := statements_url sess
  let postCall := HttpCall.post url [201] code
  let r := get_statement_output url statementsAt postStatementId fuel 0
  (r.1, postCall :: r.2)

/-- `LivySession.delete`: when the cached state is neither `"not_started"`
nor `"dead"`, issue `DELETE /sessions/{id}` accepting statuses 200 and 404
(`deleteStatus` is the status the server actually answers; any other status
makes the http client raise) and set the cached state to `"dead"`; otherwise
raise a `ValueError` without contacting the server. -/
def delete (sess : LivySession) (deleteStatus : Nat) :
    (Except PyError LivySession) × List HttpCall :=
  if sess.state ≠ "not_started" ∧ sess.state ≠ "dead" then
    let call := HttpCall.httpDelete ("/sessions/" ++ sess.id) [200, 404]
    if deleteStatus = 200 ∨ deleteStatus = 404 then
      (.ok { sess with state := "dead" }, [call])
    else
      (.error (.httpStatusError deleteStatus), [call])
  else
    (.error (.valueError ("Cannot delete session " ++ sess.id ++ " that is in state \x27" ++
      sess.state ++ "\x27.")), [])

/-- `LivySession._get_sql_context_creation_command`: the fixed bootstrap
source text per language. -/
def get_sql_context_creation_command (language : String) : Except PyError String :=
  if language = Constants.lang_scala then
    .ok ("val sqlContext = new org.apache.spark.sql.SQLContext(sc)\n" ++
      "import sqlContext.implicits._")
  else if language = Constants.lang_python then
    .ok ("from pyspark.sql import SQLContext\nfrom pyspark.sql.types import *\n" ++
      "sqlContext = SQLContext(sc)")
  else
    .error (.valueError ("Do not know how to create sqlContext in session of language " ++
      language ++ "."))

/-- `LivySession.create_sql_context`: return at once when
`self._started_sql_context` is already set; otherwise wait (bounded by
`create_sql_context_timeout_seconds`) for the idle state, execute the
language-specific bootstrap statement, and set the flag. -/
def create_sql_context (sessionsAt : Nat → List SessionEntry) (postStatementId : Int)
    (statementsAt : Nat → List Statement) (fuel : Nat) (sess : LivySession) :
    (Option (Except PyError LivySession)) × List HttpCall :=
  if sess.started_sql_context then
    (some (.ok sess), [])
  else
    match wait_for_state sessionsAt sess idle_session_state
        sess.create_sql_context_timeout_seconds fuel 0 with
    | (none, _, calls1) => (none, calls1)
    | (some (.error e), _, calls1) => (some (.error e), calls1)
    | (some (.ok sess'), _, calls1) =>
      match get_sql_context_creation_command sess'.language with
      | .error e => (some (.error e), calls1)
      | .ok cmd =>
        match execute sess' postStatementId statementsAt fuel cmd with
        | (none, calls2) => (none, calls1 ++ calls2)
        | (some (.error e), calls2) => (some (.error e), calls1 ++ calls2)
        | (some (.ok _), calls2) =>
          (some (.ok { sess' with started_sql_context := true }), calls1 ++ calls2)

/-- A concrete adopted session used to instantiate the theorems on concrete
inputs (an id the server knows, state `"busy"`). -/
def sampleActiveSession : LivySession :=
  { state := "busy", started_sql_context := false, id := "7", language := "python",
    state_sleep_seconds := 2, statement_sleep_seconds := 2,
    create_sql_context_timeout_seconds := 60 }

/-- The session obtained from `sampleActiveSession` by a successful
`delete`. -/
def sampleDeadSession : LivySession :=
  { sampleActiveSession with state := "dead" }

/-- A concrete fresh session (sentinel id, never started). -/
def sampleFreshSession : LivySession :=
  { state := "not_started", started_sql_context := false, id := "-1", language := "python",
    state_sleep_seconds := 2, statement_sleep_seconds := 2,
    create_sql_context_timeout_seconds := 60 }

/-- The session obtained from `sampleActiveSession` by a successful
`create_sql_context` (state cached as idle, sql flag set). -/
def sampleSqlSession : LivySession :=
  { sampleActiveSession with state := "idle", started_sql_context := true }

/-- A concrete statement entry that completed successfully. -/
def sampleOkStatement : Statement :=
  { id := 1, state := "available", output := { status := "ok", textPlain := "out", evalue := "" } }

/-- A concrete statement entry that finished in an output status that is
neither "ok" nor "error". -/
def sampleAbortedStatement : Statement :=
  { id := 1, state := "available",
    output := { status := "aborted", textPlain := "t", evalue := "e" } }

/-- C7: with valid timing parameters and no sentinel-id/`sql_created`
contradiction, construction fails with a configuration `ValueError` for
every language whose lower-casing is outside the supported set, and
succeeds for every supported language written in any letter case, storing
the language normalized to lowercase. -/
theorem C7_language_validation (language session_id : String) (sql_created : Bool)
    (a b c : Int) (h1 : a > 0) (h2 : b ≥ 0) (h3 : c ≥ 0)
    (h4 : ¬(session_id = "-1" ∧ sql_created = true)) :
    (strLower language ∉ Constants.lang_supported →
      init language session_id sql_created a b c =
        .error (.valueError ("Session of language \x27" ++ strLower language ++
          "\x27 not supported. Session must be of languages " ++
          String.intercalate ", " Constants.lang_supported ++ "."))) ∧
    (strLower language ∈ Constants.lang_supported →
      ∃ s, init language session_id sql_created a b c = .ok s ∧
        s.language = strLower language) := by
  unfold init
  rw [if_neg (not_not_intro h1), if_neg (not_not_intro h2), if_neg (not_not_intro h3),
    if_neg h4]
  constructor
  · intro hno
    rw [if_pos hno]
  · intro hyes
    rw [if_neg (not_not_intro hyes)]
    by_cases hid : session_id = "-1"
    · rw [if_pos hid]
      exact ⟨_, rfl, rfl⟩
    · rw [if_neg hid]
      exact ⟨_, rfl, rfl⟩

/-- Witness for C7: the mixed-case supported language "PYTHON" constructs a
session whose stored language is "python". -/
theorem C7_language_validation_witness :
    ∃ s, init "PYTHON" "8" false 2 2 60 = .ok s ∧ s.language = strLower "PYTHON" :=
  (C7_language_validation "PYTHON" "8" false 2 2 60 (by decide) (by decide) (by decide)
    (by simp)).2 (by decide)

/-- C8: constructing with the sentinel id "-1" together with
`sql_created = true` fails, for every choice of the other constructor
arguments. -/
theorem C8_sentinel_contradiction (language : String) (a b c : Int) :
    ∃ e, init language "-1" true a b c = .error e := by
  unfold init
  by_cases h1 : ¬ a > 0
  · rw [if_pos h1]; exact ⟨_, rfl⟩
  · rw [if_neg h1]
    by_cases h2 : ¬ b ≥ 0
    · rw [if_pos h2]; exact ⟨_, rfl⟩
    · rw [if_neg h2]
      by_cases h3 : ¬ c ≥ 0
      · rw [if_pos h3]; exact ⟨_, rfl⟩
      · rw [if_neg h3]
        rw [if_pos ⟨rfl, rfl⟩]
        exact ⟨_, rfl⟩

/-- C9: the statement body `execute` submits in its POST is the input with
the common leading indentation removed (`textwrap.dedent`), and in
particular "    a\n    b" is submitted as "a\nb". -/
theorem C9_execute_dedents (sess : LivySession) (postStatementId : Int)
    (statementsAt : Nat → List Statement) (fuel : Nat) (commands : String) :
    (execute sess postStatementId statementsAt fuel commands).2.head? =
      some (.post (statements_url sess) [201] (dedent commands)) ∧
    dedent "    a\n    b" = "a\nb" :=
  ⟨rfl, by decide⟩

/-- C4: when the server answers the DELETE with an accepted status (200 or
404), `delete` raises a `ValueError` without contacting the server exactly
when the cached state is `"not_started"` or `"dead"`, and otherwise issues
the HTTP DELETE and sets the state to `"dead"`. -/
theorem C4_delete_guard (sess : LivySession) (deleteStatus : Nat)
    (hrs : deleteStatus = 200 ∨ deleteStatus = 404) :
    ((sess.state = "not_started" ∨ sess.state = "dead") →
      delete sess deleteStatus =
        (.error (.valueError ("Cannot delete session " ++ sess.id ++
          " that is in state \x27" ++ sess.state ++ "\x27.")), [])) ∧
    (sess.state ≠ "not_started" → sess.state ≠ "dead" →
      delete sess deleteStatus =
        (.ok { sess with state := "dead" },
         [.httpDelete ("/sessions/" ++ sess.id) [200, 404]])) := by
  constructor
  · intro hbad
    unfold delete
    rw [if_neg (by tauto)]
  · intro hns hdead
    unfold delete
    rw [if_pos ⟨hns, hdead⟩, if_pos (by simpa using hrs)]

/-- Witness for C4: deleting a fresh session raises, deleting the active
session succeeds leaving state `"dead"`, and deleting the now-dead session
raises again. -/
theorem C4_delete_guard_witness :
    delete sampleFreshSession 200 =
      (.error (.valueError ("Cannot delete session " ++ sampleFreshSession.id ++
        " that is in state \x27" ++ sampleFreshSession.state ++ "\x27.")), []) ∧
    delete sampleActiveSession 200 =
      (.ok { sampleActiveSession with state := "dead" },
       [.httpDelete ("/sessions/" ++ sampleActiveSession.id) [200, 404]]) ∧
    delete sampleDeadSession 200 =
      (.error (.valueError ("Cannot delete session " ++ sampleDeadSession.id ++
        " that is in state \x27" ++ sampleDeadSession.state ++ "\x27.")), []) :=
  ⟨(C4_delete_guard sampleFreshSession 200 (Or.inl rfl)).1 (Or.inl rfl),
   (C4_delete_guard sampleActiveSession 200 (Or.inl rfl)).2 (by decide) (by decide),
   (C4_delete_guard sampleDeadSession 200 (Or.inl rfl)).1 (Or.inr rfl)⟩

/-- C5: reading the `state` property raises the state-consistency
`AssertionError` whenever the server session list does not contain exactly
one entry with this session's id, raises a validation `ValueError` whenever
the matched entry's state is outside the fixed enumerated set, and returns
the matched state (caching it) otherwise. -/
theorem C5_state_read (sess : LivySession) (sessions : List SessionEntry) (sid : Int)
    (hid : strToInt sess.id = some sid) :
    ((sessions.filter (fun s => s.id = sid)).length ≠ 1 →
      state_read sess sessions = .error (.assertionError ("Expected one session of id " ++
        sess.id ++ " but got " ++ toString (sessions.filter (fun s => s.id = sid)).length ++
        " sessions."))) ∧
    (∀ entry, sessions.filter (fun s => s.id = sid) = [entry] →
      entry.state ∉ possible_session_states →
      state_read sess sessions = .error (.valueError ("State \x27" ++ entry.state ++
        "\x27 not supported by session."))) ∧
    (∀ entry, sessions.filter (fun s => s.id = sid) = [entry] →
      entry.state ∈ possible_session_states →
      state_read sess sessions = .ok (entry.state, { sess with state := entry.state })) := by
  refine ⟨?_, ?_, ?_⟩
  · intro hlen
    unfold state_read get_session_state
    rw [hid]
    simp only []
    rw [if_pos hlen]
  · intro entry hfil hout
    unfold state_read get_session_state
    rw [hid]
    simp only []
    rw [hfil, if_neg (by simp)]
    simp only []
    rw [if_neg hout]
  · intro entry hfil hin
    unfold state_read get_session_state
    rw [hid]
    simp only []
    rw [hfil, if_neg (by simp)]
    simp only []
    rw [if_pos hin]

/-- Witness for C5: with a unique matching entry in a recognized state, the
read returns that state and caches it. -/
theorem C5_state_read_witness :
    state_read sampleActiveSession [{ id := 7, state := "idle" }] =
      .ok ("idle", { sampleActiveSession with state := "idle" }) :=
  (C5_state_read sampleActiveSession [{ id := 7, state := "idle" }] 7 (by decide)).2.2
    { id := 7, state := "idle" } (by decide) (by decide)

/-- Reading the state against a server list holding exactly one entry with
this session's id returns that entry's state and caches it. -/
theorem state_read_single (sess : LivySession) (sid : Int) (st : String)
    (hid : strToInt sess.id = some sid) (hst : st ∈ possible_session_states) :
    state_read sess [{ id := sid, state := st }] = .ok (st, { sess with state := st }) := by
  unfold state_read get_session_state
  rw [hid]
  simp [hst]

/-- C1 (counterexample): the claim that every `execute` call after a
successful `delete` fails is false — `execute` performs no client-side
state check, so on a session whose state is `"dead"` it still submits the
statement and returns its output when the server answers. -/
theorem C1_execute_after_delete_counterexample :
    (delete sampleActiveSession 200).1 = .ok sampleDeadSession ∧
    sampleDeadSession.state = "dead" ∧
    (execute sampleDeadSession 1 (fun _ => [sampleOkStatement]) 1 "x").1 =
      some (.ok "out") := by decide

/-- C1 (amended): a successful `delete` leaves the cached state `"dead"`,
and every further `delete` on the resulting session raises; `execute` and
`wait_for_state` make no client-side state check, so after `delete` they
fail only according to the server's responses. -/
theorem C1_delete_terminal (sess sess' : LivySession) (deleteStatus : Nat)
    (h : (delete sess deleteStatus).1 = .ok sess') (deleteStatus2 : Nat) :
    sess'.state = "dead" ∧ ∃ e, (delete sess' deleteStatus2).1 = .error e := by
  unfold delete at h
  split at h
  · split at h
    · simp only [Except.ok.injEq] at h
      subst h
      refine ⟨rfl, ?_⟩
      unfold delete
      rw [if_neg (by simp)]
      exact ⟨_, rfl⟩
    · simp at h
  · simp at h

/-- Witness for C1 (amended): instantiated at the concrete active session. -/
theorem C1_delete_terminal_witness :
    sampleDeadSession.state = "dead" ∧ ∃ e, (delete sampleDeadSession 200).1 = .error e :=
  C1_delete_terminal sampleActiveSession sampleDeadSession 200 (by decide) 200

/-- When the state read from the server never equals the target, the retry
loop of `wait_for_state` with budget `k * state_sleep_seconds` sleeps `k`
times, reads the state `k + 1` times, and then raises the timeout error
carrying the session id, the target state and the last-observed state. -/
theorem wait_for_state_never_target_aux (stAt : Nat → String) (sid : Int) (target : String)
    (hs : ∀ n, stAt n ∈ possible_session_states) (hneq : ∀ n, stAt n ≠ target) :
    ∀ (k : Nat) (sess : LivySession) (fuel pollIdx : Nat),
      strToInt sess.id = some sid → 0 < sess.state_sleep_seconds → k + 1 ≤ fuel →
      wait_for_state (fun n => [{ id := sid, state := stAt n }]) sess target
          ((k : Int) * sess.state_sleep_seconds) fuel pollIdx =
        (some (.error (.livyClientTimeoutError ("Session " ++ sess.id ++ " did not reach " ++
          target ++ " state in time. Current state is " ++ stAt (pollIdx + k) ++ "."))), k,
          List.replicate (k + 1) (HttpCall.get "/sessions" [200])) := by
  intro k
  induction k with
  | zero =>
    intro sess fuel pollIdx hid hpos hfuel
    obtain ⟨f, rfl⟩ : ∃ f, fuel = f + 1 := ⟨fuel - 1, by omega⟩
    simp only [wait_for_state, state_read_single sess sid (stAt pollIdx) hid (hs pollIdx)]
    rw [if_neg (hneq pollIdx)]
    rw [if_neg (by simp)]
    simp
  | succ k ih =>
    intro sess fuel pollIdx hid hpos hfuel
    obtain ⟨f, rfl⟩ : ∃ f, fuel = f + 1 := ⟨fuel - 1, by omega⟩
    simp only [wait_for_state, state_read_single sess sid (stAt pollIdx) hid (hs pollIdx)]
    rw [if_neg (hneq pollIdx)]
    rw [if_pos (by positivity)]
    have harg : ((k + 1 : Nat) : Int) * sess.state_sleep_seconds - sess.state_sleep_seconds =
        ((k : Nat) : Int) * sess.state_sleep_seconds := by push_cast; ring
    rw [show ({ sess with state := stAt pollIdx } : LivySession).state_sleep_seconds =
      sess.state_sleep_seconds from rfl, harg]
    rw [ih { sess with state := stAt pollIdx } f (pollIdx + 1) hid hpos (by omega)]
    have hidx : pollIdx + 1 + k = pollIdx + (k + 1) := by omega
    simp [hidx, List.replicate_succ]

/-- C2: when the state read from the server never equals the target state
and the budget is `k * state_sleep_seconds`, `wait_for_state` performs
exactly `k` sleep-and-retry cycles (`k + 1` state reads) and then raises a
timeout error carrying the session id, the target state and the
last-observed state. -/
theorem C2_wait_for_state_timeout (stAt : Nat → String) (sid : Int) (target : String)
    (sess : LivySession) (k fuel : Nat)
    (hs : ∀ n, stAt n ∈ possible_session_states) (hneq : ∀ n, stAt n ≠ target)
    (hid : strToInt sess.id = some sid) (hpos : 0 < sess.state_sleep_seconds)
    (hk : 1 ≤ k) (hfuel : k + 1 ≤ fuel) :
    wait_for_state (fun n => [{ id := sid, state := stAt n }]) sess target
        ((k : Int) * sess.state_sleep_seconds) fuel 0 =
      (some (.error (.livyClientTimeoutError ("Session " ++ sess.id ++ " did not reach " ++
        target ++ " state in time. Current state is " ++ stAt k ++ "."))), k,
        List.replicate (k + 1) (HttpCall.get "/sessions" [200])) := by
  have h := wait_for_state_never_target_aux stAt sid target hs hneq k sess fuel 0 hid hpos hfuel
  simpa using h

/-- Witness for C2: one poll cycle with a server stuck in `"busy"`. -/
theorem C2_wait_for_state_timeout_witness :
    wait_for_state (fun _ => [{ id := 7, state := "busy" }]) sampleActiveSession "idle"
        (((1 : Nat) : Int) * sampleActiveSession.state_sleep_seconds) 3 0 =
      (some (.error (.livyClientTimeoutError
        "Session 7 did not reach idle state in time. Current state is busy.")), 1,
        List.replicate 2 (HttpCall.get "/sessions" [200])) :=
  C2_wait_for_state_timeout (fun _ => "busy") 7 "idle" sampleActiveSession 1 3
    (fun _ => (by decide : ("busy" : String) ∈ possible_session_states))
    (fun _ => (by decide : ("busy" : String) ≠ "idle"))
    (by decide) (by decide) (by decide) (by decide)

/-- When the polled statement is found on every fetch, stays `"running"` for
the first `n` fetches and is terminal on fetch `n`, the statement loop
performs `n + 1` fetches and returns the payload selected by the terminal
output status (`text/plain` for "ok", `evalue` for "error", `""`
otherwise). -/
theorem get_statement_output_terminal_aux (url : String)
    (statementsAt : Nat → List Statement) (sid : Int) (stAt : Nat → Statement)
    (hfind : ∀ j, ((statementsAt j).filter (fun i => i.id = sid)).head? = some (stAt j)) :
    ∀ (n pollIdx fuel : Nat),
      (∀ j, j < n → (stAt (pollIdx + j)).state = "running") →
      (stAt (pollIdx + n)).state ≠ "running" →
      n + 1 ≤ fuel →
      get_statement_output url statementsAt sid fuel pollIdx =
        (some (.ok (if (stAt (pollIdx + n)).output.status = "ok" then
            (stAt (pollIdx + n)).output.textPlain
          else if (stAt (pollIdx + n)).output.status = "error" then
            (stAt (pollIdx + n)).output.evalue
          else "")),
         List.replicate (n + 1) (HttpCall.get url [200])) := by
  intro n
  induction n with
  | zero =>
    intro pollIdx fuel hrun hterm hfuel
    obtain ⟨f, rfl⟩ : ∃ f, fuel = f + 1 := ⟨fuel - 1, by omega⟩
    simp only [get_statement_output, hfind pollIdx]
    rw [if_neg (by simpa using hterm)]
    simp
  | succ n ih =>
    intro pollIdx fuel hrun hterm hfuel
    obtain ⟨f, rfl⟩ : ∃ f, fuel = f + 1 := ⟨fuel - 1, by omega⟩
    simp only [get_statement_output, hfind pollIdx]
    rw [if_pos (by simpa using hrun 0 (Nat.succ_pos n))]
    have hrun' : ∀ j, j < n → (stAt (pollIdx + 1 + j)).state = "running" := by
      intro j hj
      have h := hrun (j + 1) (by omega)
      rwa [show pollIdx + (j + 1) = pollIdx + 1 + j by omega] at h
    have hterm' : (stAt (pollIdx + 1 + n)).state ≠ "running" := by
      rwa [show pollIdx + 1 + n = pollIdx + (n + 1) by omega]
    rw [ih (pollIdx + 1) f hrun' hterm' (by omega)]
    have hidx : pollIdx + 1 + n = pollIdx + (n + 1) := by omega
    simp [hidx, List.replicate_succ]

/-- C3: for every statement that reaches a non-`"running"` state, `execute`
returns the output's `data["text/plain"]` string when the output status is
"ok" and the output's `evalue` string when it is "error"; in both cases the
result is an ordinary return value, not a raised error. -/
theorem C3_execute_statement_output (sess : LivySession) (postStatementId : Int)
    (statementsAt : Nat → List Statement) (stAt : Nat → Statement) (n fuel : Nat)
    (commands : String)
    (hfind : ∀ j, ((statementsAt j).filter (fun i => i.id = postStatementId)).head? =
      some (stAt j))
    (hrun : ∀ j, j < n → (stAt j).state = "running")
    (hterm : (stAt n).state ≠ "running")
    (hfuel : n + 1 ≤ fuel) :
    ((stAt n).output.status = "ok" →
      (execute sess postStatementId statementsAt fuel commands).1 =
        some (.ok (stAt n).output.textPlain)) ∧
    ((stAt n).output.status = "error" →
      (execute sess postStatementId statementsAt fuel commands).1 =
        some (.ok (stAt n).output.evalue)) := by
  have key := get_statement_output_terminal_aux (statements_url sess) statementsAt
    postStatementId stAt hfind n 0 fuel (by simpa using hrun) (by simpa using hterm) hfuel
  simp only [Nat.zero_add] at key
  constructor
  · intro hok
    unfold execute
    simp only [key]
    rw [if_pos hok]
  · intro herr
    have hok : (stAt n).output.status ≠ "ok" := by
      intro hc
      rw [hc] at herr
      exact absurd herr (by decide)
    unfold execute
    simp only [key]
    rw [if_neg hok, if_pos herr]

/-- Witness for C3: a single fetch finds the statement already terminal
with status "ok" and `execute` returns its `text/plain` payload. -/
theorem C3_execute_statement_output_witness :
    (execute sampleActiveSession 1 (fun _ => [sampleOkStatement]) 1 "x").1 =
      some (.ok "out") :=
  (C3_execute_statement_output sampleActiveSession 1 (fun _ => [sampleOkStatement])
    (fun _ => sampleOkStatement) 0 1 "x" (fun _ => rfl) (fun _ h => absurd h (by omega))
    (by decide) (by decide)).1 (by decide)

/-- C10: if the statement reaches a non-`"running"` state whose output
status is neither "ok" nor "error", `execute` returns the empty string
(the initial value of `output`), raising nothing and returning no payload
field. -/
theorem C10_unknown_status_empty_output (sess : LivySession) (postStatementId : Int)
    (statementsAt : Nat → List Statement) (stAt : Nat → Statement) (n fuel : Nat)
    (commands : String)
    (hfind : ∀ j, ((statementsAt j).filter (fun i => i.id = postStatementId)).head? =
      some (stAt j))
    (hrun : ∀ j, j < n → (stAt j).state = "running")
    (hterm : (stAt n).state ≠ "running")
    (hfuel : n + 1 ≤ fuel)
    (hok : (stAt n).output.status ≠ "ok")
    (herr : (stAt n).output.status ≠ "error") :
    (execute sess postStatementId statementsAt fuel commands).1 = some (.ok "") := by
  have key := get_statement_output_terminal_aux (statements_url sess) statementsAt
    postStatementId stAt hfind n 0 fuel (by simpa using hrun) (by simpa using hterm) hfuel
  simp only [Nat.zero_add] at key
  unfold execute
  simp only [key]
  rw [if_neg hok, if_neg herr]

/-- Witness for C10: a statement terminal in an unrecognized output status
makes `execute` return the empty string. -/
theorem C10_unknown_status_empty_output_witness :
    (execute sampleActiveSession 1 (fun _ => [sampleAbortedStatement]) 1 "x").1 =
      some (.ok "") :=
  C10_unknown_status_empty_output sampleActiveSession 1
    (fun _ => [sampleAbortedStatement]) (fun _ => sampleAbortedStatement) 0 1 "x"
    (fun _ => rfl) (fun _ h => absurd h (by omega)) (by decide) (by decide)
    (by decide) (by decide)

/-- C6: once `create_sql_context` has succeeded — which sets
`started_sql_context` — every subsequent call on the resulting session
returns immediately and issues no transport call at all, whatever server
responses would be available, so the bootstrap statement is submitted at
most once per session. -/
theorem C6_create_sql_context_idempotent (sessionsAt : Nat → List SessionEntry)
    (postStatementId : Int) (statementsAt : Nat → List Statement) (fuel : Nat)
    (sess sess' : LivySession)
    (h : (create_sql_context sessionsAt postStatementId statementsAt fuel sess).1 =
      some (.ok sess')) :
    sess'.started_sql_context = true ∧
    ∀ (sessionsAt2 : Nat → List SessionEntry) (postStatementId2 : Int)
      (statementsAt2 : Nat → List Statement) (fuel2 : Nat),
      create_sql_context sessionsAt2 postStatementId2 statementsAt2 fuel2 sess' =
        (some (.ok sess'), []) := by
  have hflag : sess'.started_sql_context = true := by
    unfold create_sql_context at h
    split at h
    · simp only [Option.some.injEq, Except.ok.injEq] at h
      subst h
      assumption
    · split at h
      · simp at h
      · simp at h
      · rename_i sess1 _ _
        split at h
        · simp at h
        · split at h
          · simp at h
          · simp at h
          · simp only [Option.some.injEq, Except.ok.injEq] at h
            subst h
            rfl
  refine ⟨hflag, ?_⟩
  intro sessionsAt2 postStatementId2 statementsAt2 fuel2
  unfold create_sql_context
  rw [if_pos hflag]

/-- Witness for C6: a concrete successful first call (server reports idle at
once, the bootstrap statement completes with status "ok"), after which a
second call with arbitrary other responses issues nothing. -/
theorem C6_create_sql_context_idempotent_witness :
    sampleSqlSession.started_sql_context = true ∧
    create_sql_context (fun _ => []) 0 (fun _ => []) 0 sampleSqlSession =
      (some (.ok sampleSqlSession), []) := by
  have h := C6_create_sql_context_idempotent (fun _ => [{ id := 7, state := "idle" }]) 1
    (fun _ => [sampleOkStatement]) 3 sampleActiveSession sampleSqlSession (by decide)
  exact ⟨h.1, h.2 (fun _ => []) 0 (fun _ => []) 0⟩

end LivyModel
